import Mathlib

/-!
Shallow embedding of `buildeasy/buildeasy.py` (TaireruLLC/buildeasy).

The file models the module-to-singleton transformation performed by
`FileAsClass.__init_subclass__`, the plugin scanner `scan_for_plugins`, the
pickling helpers `__getstate__` / `__setstate__` / `save_to_file` /
`load_from_file`, and the `__getattribute__` override.  Python dictionaries
become functions into `Option`, machine state (`sys.modules`,
`FileAsClass._cache`, object identity) becomes an explicit `PyState`, and the
user class being transformed becomes a `ClassSpec` record carrying its
`__init__` signature, its `__dict__`, its `__mro__` and its constructor
behaviour.  Comments cite the source lines each definition embeds.
-/

namespace BuildEasy

/-- Python runtime values, as far as the claims need them.  `staticmethodObj`
and `classmethodObj` stand for the wrapper objects found in a class
`__dict__`; `instRef` is a reference to a heap instance by identity. -/
inductive Value where
  | none
  | bool (b : Bool)
  | int (n : Int)
  | str (s : String)
  | strs (elems : List String)
  | tuple (elems : List Value)
  | instRef (instId : Nat)
  | pyFunc (owner : String) (fname : String)
  | staticmethodObj (owner : String) (fname : String)
  | classmethodObj (owner : String) (fname : String)
  | obj (descr : String)

/-- The exceptions appearing in `buildeasy.py`: the `RuntimeError` of line 46
(the spec's ConfigurationError), the `KeyError` implicit in
`sys.modules[module_name]` at line 47, `TypeError` (raised by line 39 for
keyword overrides and caught at line 70 around instantiation),
`AttributeError` (e.g. the `cls.instance` lookup at line 172),
`TransformationError` (raised at line 72), and a catch-all `otherError` for
any other exception user code may raise. -/
inductive PyExc where
  | typeError (msg : String)
  | otherError (msg : String)
  | runtimeError (msg : String)
  | keyError (key : String)
  | attributeError (msg : String)
  | transformationError (msg : String)

/-- A Python attribute dictionary (`__dict__`), e.g. of an instance. -/
abbrev AttrMap := String → Option Value

/-- `setattr(obj, k, v)`: overwrite one key of an attribute dictionary. -/
def setAttr (m : AttrMap) (k : String) (v : Value) : AttrMap :=
  fun k' => if k' = k then some v else m k'

/-- `callable(v)` as used at lines 77 and 99.  Plain functions are callable;
`staticmethod` wrapper objects are callable on CPython >= 3.10 (the 3.x
versions this package targets); `classmethod` wrappers and data are not. -/
def isCallable : Value → Bool
  | Value.pyFunc _ _ => true
  | Value.staticmethodObj _ _ => true
  | _ => false

/-- `name.startswith("_")` as used at lines 77 and 99: whether the first
character is an underscore. -/
def startsWithUnderscore (s : String) : Bool :=
  match s.data with
  | [] => false
  | c :: _ => c == '_' 

/-- One declared `__init__` parameter (after `self`), line 55.
`default = none` models `inspect.Parameter.empty` (no declared default). -/
structure Param where
  name : String
  default : Option Value

/-- The value chosen for one parameter at lines 59-65: the caller-supplied
override from `init_kwargs` if present, else the declared default, else
`None`. -/
def paramValue (init_kwargs : AttrMap) (param : Param) : Value :=
  match init_kwargs param.name with
  | some v => v
  | Option.none =>
    match param.default with
    | some d => d
    | Option.none => Value.none

/-- One iteration of the loop at lines 59-65: `init_args[param.name] = ...`. -/
def argStep (init_kwargs : AttrMap) (init_args : AttrMap) (param : Param) : AttrMap :=
  fun k => if k = param.name then some (paramValue init_kwargs param) else init_args k

/-- Lines 54-65: build `init_args` from the `__init__` signature (minus
`self`) and the keyword overrides. -/
def buildInitArgs (params : List Param) (init_kwargs : AttrMap) : AttrMap :=
  params.foldl (argStep init_kwargs) (fun _ => Option.none)

/-- The `**init_kwargs` dictionary handed to `__init_subclass__` is the
finite set of extra keywords of the class-definition statement; this is its
dictionary view, used by the `param.name in init_kwargs` test and the
`init_kwargs[param.name]` subscript at lines 60-61 (keyword names are
duplicate-free, so first-match lookup is exact). -/
def kwargsMap (init_kwargs : List (String × Value)) : AttrMap :=
  fun k => init_kwargs.lookup k

/-- Lines 74-78: names of the public callables found directly in
`cls.__dict__`, in dictionary order. -/
def publicMethods (dict : List (String × Value)) : List String :=
  (dict.filter (fun kv => isCallable kv.2 && !(startsWithUnderscore kv.1))).map Prod.fst

/-- Lines 80-85: re-inject `staticmethod` and `classmethod` wrapper objects
from `cls.__dict__` onto the instance. -/
def injectStaticClass (dict : List (String × Value)) (attrs : AttrMap) : AttrMap :=
  dict.foldl
    (fun acc kv =>
      match kv.2 with
      | Value.staticmethodObj o n => setAttr acc kv.1 (Value.staticmethodObj o n)
      | Value.classmethodObj o n => setAttr acc kv.1 (Value.classmethodObj o n)
      | _ => acc)
    attrs

/-- One entry of `cls.__mro__`: the Python object identity of the class (for
the `base_cls is not cls` test at line 97), its name, and its `__dict__`. -/
structure AncestorSpec where
  clsId : Nat
  name : String
  dict : List (String × Value)

/-- Lines 98-100: copy every non-underscore-prefixed callable from one
ancestor's `__dict__` onto the instance, in dictionary order. -/
def injectPublicCallables (dict : List (String × Value)) (attrs : AttrMap) : AttrMap :=
  dict.foldl
    (fun acc kv =>
      if isCallable kv.2 && !(startsWithUnderscore kv.1) then setAttr acc kv.1 kv.2 else acc)
    attrs

/-- Lines 95-100: walk `cls.__mro__`, skipping `cls` itself (compared by
object identity), copying each ancestor's public callables onto the
instance; `setattr` makes this last-writer-wins across ancestors. -/
def mroWalk (clsId : Nat) (mro : List AncestorSpec) (attrs : AttrMap) : AttrMap :=
  mro.foldl
    (fun acc base =>
      if base.clsId = clsId then acc else injectPublicCallables base.dict acc)
    attrs

/-- An entry of `sys.modules`: either an ordinary module object (with its
attribute dictionary) or, after transformation, a reference to the singleton
instance stored at line 103. -/
inductive ModEntry where
  | mod (attrs : AttrMap)
  | ref (instId : Nat)

/-- Process-wide state: `sys.modules`, `FileAsClass._cache` (line 16, mapping
module name to the identity of the cached instance), the heap of instance
attribute dictionaries keyed by identity, and the next fresh identity. -/
structure PyState where
  modules : String → Option ModEntry
  cache : String → Option Nat
  heap : Nat → Option AttrMap
  nextId : Nat

/-- `getattr(module, attr, None)` at line 93. -/
def getModAttr (s : PyState) (m : ModEntry) (a : String) : Value :=
  match m with
  | ModEntry.mod attrs =>
    match attrs a with
    | some v => v
    | Option.none => Value.none
  | ModEntry.ref i =>
    match s.heap i with
    | some attrs =>
      match attrs a with
      | some v => v
      | Option.none => Value.none
    | Option.none => Value.none

/-- The five identity attributes copied at line 92. -/
def moduleIdentityAttrs : List String :=
  ["__name__", "__package__", "__loader__", "__spec__", "__file__"]

/-- Lines 91-93: copy the five module identity attributes onto the instance,
defaulting each to `None` when absent on the module. -/
def copyModuleAttrs (s : PyState) (m : ModEntry) (attrs : AttrMap) : AttrMap :=
  moduleIdentityAttrs.foldl (fun acc a => setAttr acc a (getModAttr s m a)) attrs

/-- The subclass being transformed: its object identity, `__name__`, the
`__init__` parameters after `self`, its `__dict__`, its `__mro__`, and the
behaviour of `cls(**init_args)` at line 69 — the user's constructor is
arbitrary code, so it is a function from the argument dictionary to either
the fresh instance's `__dict__` or a raised exception. -/
structure ClassSpec where
  clsId : Nat
  name : String
  params : List Param
  dict : List (String × Value)
  mro : List AncestorSpec
  construct : AttrMap → Except PyExc AttrMap

/-- `FileAsClass.__init_subclass__`, lines 39-106.  `init_kwargs` is the
finite dictionary of extra keywords of the class-definition statement;
`module_name` is the result of the frame introspection at lines 42-43
(`none` when the caller's `__name__` is missing).  The first statement
(line 39) is `super().__init_subclass__(**init_kwargs)`: the class after
`FileAsClass` in the MRO of every subclass in this repository is `object`,
and `object.__init_subclass__` raises `TypeError` when handed any keyword
argument — so any non-empty override set fails here, before the frame
introspection, the cache check and the instantiation.  Returns the produced
(or cached) instance's identity together with the updated process state, or
the raised exception.  All mutations of process-wide state happen only on
the success path, exactly as in the source (lines 103-104 run last). -/
def transform (cls : ClassSpec) (init_kwargs : List (String × Value))
    (module_name : Option String) (s : PyState) : Except PyExc (Nat × PyState) :=
  match init_kwargs with
  | _ :: _ =>
    -- line 39: object.__init_subclass__ rejects every keyword argument
    Except.error (PyExc.typeError
      (cls.name ++ ".__init_subclass__() takes no keyword arguments"))
  | [] =>
    match module_name with
    | Option.none =>
      -- line 46
      Except.error (PyExc.runtimeError "Cannot determine module name from caller's frame.")
    | some module_name =>
      match s.modules module_name with
      | Option.none => Except.error (PyExc.keyError module_name)  -- line 47
      | some module =>
        match s.cache module_name with
        | some cached => Except.ok (cached, s)  -- lines 50-51
        | Option.none =>
          let init_args := buildInitArgs cls.params (kwargsMap init_kwargs)  -- lines 54-65
          match cls.construct init_args with  -- lines 68-72
          | Except.error (PyExc.typeError e) =>
            Except.error (PyExc.transformationError
              ("Error instantiating " ++ cls.name ++ ": " ++ e))
          | Except.error e => Except.error e
          | Except.ok attrs0 =>
            let instId := s.nextId
            let attrs1 := injectStaticClass cls.dict attrs0  -- lines 80-85
            let attrs2 := setAttr attrs1 "__all__"
              (Value.strs (publicMethods cls.dict ++ ["instance"]))  -- line 88
            let attrs3 := setAttr attrs2 "instance" (Value.instRef instId)  -- line 89
            let attrs4 := copyModuleAttrs s module attrs3  -- lines 91-93
            let attrs5 := mroWalk cls.clsId cls.mro attrs4  -- lines 95-100
            Except.ok (instId,
              { modules := fun n => if n = module_name then some (ModEntry.ref instId)
                  else s.modules n  -- line 103
                cache := fun n => if n = module_name then some instId
                  else s.cache n  -- line 104
                heap := fun i => if i = instId then some attrs5 else s.heap i
                nextId := s.nextId + 1 })

/-- One transformation request: a subclass definition event with its keyword
overrides and the caller's resolved module name. -/
structure TEvent where
  cls : ClassSpec
  kwargs : List (String × Value)
  moduleName : Option String

/-- The process state after one transformation request: on an exception the
state is unchanged (the source mutates process state only at lines
103-104, after every failure point). -/
def runOne (s : PyState) (e : TEvent) : PyState :=
  match transform e.cls e.kwargs e.moduleName s with
  | Except.ok r => r.2
  | Except.error _ => s

/-- The process state after a sequence of transformation requests. -/
def run (s : PyState) (es : List TEvent) : PyState :=
  es.foldl runOne s

/-- The identity of the instance a transformation returns, when it succeeds. -/
def transformId (cls : ClassSpec) (init_kwargs : List (String × Value)) (mn : Option String)
    (s : PyState) : Option Nat :=
  match transform cls init_kwargs mn s with
  | Except.ok r => some r.1
  | Except.error _ => Option.none

/-- The process state after one transformation call (unchanged on failure). -/
def transformState (cls : ClassSpec) (init_kwargs : List (String × Value)) (mn : Option String)
    (s : PyState) : PyState :=
  match transform cls init_kwargs mn s with
  | Except.ok r => r.2
  | Except.error _ => s

/-- The reachable-state invariant tying the Registry to the module table:
whenever `FileAsClass._cache` holds an instance for a module name,
`sys.modules` holds that same instance (lines 103-104 establish both
together, and nothing in the package removes either entry). -/
def Inv (s : PyState) : Prop :=
  ∀ n i, s.cache n = some i → s.modules n = some (ModEntry.ref i)

/-- Whether a transformation outcome is a raised `TransformationError`. -/
def isTransformationError : Except PyExc (Nat × PyState) → Bool
  | Except.error (PyExc.transformationError _) => true
  | _ => false

/-! ### Helper lemmas about `buildInitArgs` -/

theorem buildFold_notMem (init_kwargs : AttrMap) (params : List Param) (acc : AttrMap)
    (k : String) (h : k ∉ params.map Param.name) :
    params.foldl (argStep init_kwargs) acc k = acc k := by
  induction params generalizing acc with
  | nil => rfl
  | cons q rest ih =>
    simp only [List.map_cons, List.mem_cons, not_or] at h
    simp only [List.foldl_cons]
    rw [ih _ h.2]
    simp [argStep, h.1]

theorem buildFold_mem (init_kwargs : AttrMap) (params : List Param) (p : Param)
    (hmem : p ∈ params) (hnodup : (params.map Param.name).Nodup) :
    ∀ acc : AttrMap,
      params.foldl (argStep init_kwargs) acc p.name = some (paramValue init_kwargs p) := by
  induction params with
  | nil => cases hmem
  | cons q rest ih =>
    intro acc
    simp only [List.map_cons, List.nodup_cons] at hnodup
    simp only [List.foldl_cons]
    rcases List.mem_cons.mp hmem with h | h
    · subst h
      rw [buildFold_notMem _ _ _ _ hnodup.1]
      simp [argStep]
    · exact ih h hnodup.2 _

theorem buildInitArgs_mem (params : List Param) (init_kwargs : AttrMap) (p : Param)
    (hmem : p ∈ params) (hnodup : (params.map Param.name).Nodup) :
    buildInitArgs params init_kwargs p.name = some (paramValue init_kwargs p) :=
  buildFold_mem init_kwargs params p hmem hnodup _

/-! ### Helper lemmas about `transform` -/

/-- Lines 50-51: when line 39 passes (no keyword overrides), a cache hit
returns the cached instance and leaves the state untouched. -/
theorem transform_hit (cls : ClassSpec) (n : String)
    (s : PyState) (i : Nat) (m : ModEntry)
    (hmod : s.modules n = some m) (hcache : s.cache n = some i) :
    transform cls [] (some n) s = Except.ok (i, s) := by
  simp [transform, hmod, hcache]

/-- Every successful transformation is either a cache hit (state unchanged)
or a fresh creation (which writes exactly the entry for `n` into both
`sys.modules` and the cache and allocates one new identity); success forces
the keyword overrides to have been empty, since line 39 raises otherwise. -/
theorem transform_ok_cases (cls : ClassSpec) (k : List (String × Value)) (n : String)
    (s : PyState) (i : Nat) (s' : PyState)
    (h : transform cls k (some n) s = Except.ok (i, s')) :
    (s.cache n = some i ∧ s' = s) ∨
    (s.cache n = Option.none ∧ i = s.nextId ∧
      s'.cache = (fun n' => if n' = n then some s.nextId else s.cache n') ∧
      s'.modules = (fun n' => if n' = n then some (ModEntry.ref s.nextId) else s.modules n') ∧
      s'.nextId = s.nextId + 1) := by
  cases k with
  | cons a l => simp [transform] at h
  | nil =>
    cases hmod : s.modules n with
    | none => simp [transform, hmod] at h
    | some m =>
      cases hc : s.cache n with
      | some j =>
        simp only [transform, hmod, hc, Except.ok.injEq, Prod.mk.injEq] at h
        exact Or.inl ⟨congrArg some h.1, h.2.symm⟩
      | none =>
        cases hcons : cls.construct (buildInitArgs cls.params (kwargsMap [])) with
        | error e => cases e <;> simp [transform, hmod, hc, hcons] at h
        | ok a0 =>
          simp only [transform, hmod, hc, hcons, Except.ok.injEq, Prod.mk.injEq] at h
          refine Or.inr ⟨rfl, h.1.symm, ?_, ?_, ?_⟩ <;> rw [← h.2]

theorem transform_ok_cache_self (cls : ClassSpec) (k : List (String × Value)) (n : String)
    (s : PyState) (i : Nat) (s' : PyState)
    (h : transform cls k (some n) s = Except.ok (i, s')) : s'.cache n = some i := by
  rcases transform_ok_cases cls k n s i s' h with ⟨hc, rfl⟩ | ⟨_, rfl, hcf, _, _⟩
  · exact hc
  · rw [hcf]; simp

theorem transform_ok_modules_self (cls : ClassSpec) (k : List (String × Value)) (n : String)
    (s : PyState) (i : Nat) (s' : PyState) (hInv : Inv s)
    (h : transform cls k (some n) s = Except.ok (i, s')) :
    s'.modules n = some (ModEntry.ref i) := by
  rcases transform_ok_cases cls k n s i s' h with ⟨hc, rfl⟩ | ⟨_, rfl, _, hmf, _⟩
  · exact hInv n i hc
  · rw [hmf]; simp

/-- A successful transformation of one module name never touches the cache
or module-table entries of any other name. -/
theorem transform_ok_other (cls : ClassSpec) (k : List (String × Value)) (n : String) (s : PyState)
    (i : Nat) (s' : PyState) (n' : String) (hne : n' ≠ n)
    (h : transform cls k (some n) s = Except.ok (i, s')) :
    s'.cache n' = s.cache n' ∧ s'.modules n' = s.modules n' := by
  rcases transform_ok_cases cls k n s i s' h with ⟨_, rfl⟩ | ⟨_, _, hcf, hmf, _⟩
  · exact ⟨rfl, rfl⟩
  · rw [hcf, hmf]; simp [hne]

/-- `Inv` is preserved by every successful transformation. -/
theorem transform_ok_inv (cls : ClassSpec) (k : List (String × Value)) (n : String) (s : PyState)
    (i : Nat) (s' : PyState) (hInv : Inv s)
    (h : transform cls k (some n) s = Except.ok (i, s')) : Inv s' := by
  rcases transform_ok_cases cls k n s i s' h with ⟨_, rfl⟩ | ⟨_, _, hcf, hmf, _⟩
  · exact hInv
  · intro n' j hj
    rw [hcf] at hj
    rw [hmf]
    by_cases hn : n' = n
    · subst hn
      simp at hj ⊢
      omega
    · simp [hn] at hj ⊢
      exact hInv n' j hj

/-- When line 39 passes (no keyword overrides), the module is resolvable,
no instance is cached yet, and the user's constructor succeeds, the
transformation succeeds and allocates the next fresh identity
(lines 53-106). -/
theorem transform_creates (cls : ClassSpec) (n : String) (s : PyState)
    (m : ModEntry) (a0 : AttrMap)
    (hmod : s.modules n = some m) (hcache : s.cache n = Option.none)
    (hok : cls.construct (buildInitArgs cls.params (kwargsMap [])) = Except.ok a0) :
    ∃ s', transform cls [] (some n) s = Except.ok (s.nextId, s') := by
  simp only [transform, hmod, hcache, hok]
  exact ⟨_, rfl⟩

/-- An established cache/module-table pair for a name survives any further
transformation request. -/
theorem runOne_pres (s : PyState) (e : TEvent) (n : String) (i : Nat)
    (hc : s.cache n = some i) (hm : s.modules n = some (ModEntry.ref i)) :
    (runOne s e).cache n = some i ∧ (runOne s e).modules n = some (ModEntry.ref i) := by
  unfold runOne
  cases ht : transform e.cls e.kwargs e.moduleName s with
  | error _ => exact ⟨hc, hm⟩
  | ok r =>
    obtain ⟨j, s'⟩ := r
    cases hk : e.kwargs with
    | cons a l => rw [hk] at ht; simp [transform] at ht
    | nil =>
      rw [hk] at ht
      cases hmn : e.moduleName with
      | none => rw [hmn] at ht; simp [transform] at ht
      | some n' =>
        rw [hmn] at ht
        by_cases hn : n = n'
        · subst hn
          rw [transform_hit e.cls n s i (ModEntry.ref i) hm hc] at ht
          simp only [Except.ok.injEq, Prod.mk.injEq] at ht
          rw [← ht.2]
          exact ⟨hc, hm⟩
        · have := transform_ok_other e.cls [] n' s j s' n hn ht
          rw [this.1, this.2]
          exact ⟨hc, hm⟩

/-- An established cache/module-table pair survives any sequence of further
transformation requests. -/
theorem run_pres (es : List TEvent) (s : PyState) (n : String) (i : Nat)
    (hc : s.cache n = some i) (hm : s.modules n = some (ModEntry.ref i)) :
    (run s es).cache n = some i ∧ (run s es).modules n = some (ModEntry.ref i) := by
  induction es generalizing s with
  | nil => exact ⟨hc, hm⟩
  | cons e rest ih =>
    have h1 := runOne_pres s e n i hc hm
    exact ih (runOne s e) h1.1 h1.2

/-! ### Claim C1 -/

def wC1attrs : AttrMap := fun a => if a = "__name__" then some (Value.str "my_module") else Option.none

def wC1s : PyState :=
  { modules := fun n => if n = "my_module" then some (ModEntry.mod wC1attrs) else Option.none
    cache := fun n => if n = "my_module" then some 7 else Option.none
    heap := fun i => if i = 7 then some (fun _ => Option.none) else Option.none
    nextId := 8 }

def wC1cls : ClassSpec :=
  { clsId := 0, name := "MyModule"
    params := [⟨"name", some (Value.str "buildeasy")⟩]
    dict := [("greet", Value.pyFunc "MyModule" "greet")]
    mro := [⟨0, "MyModule", [("greet", Value.pyFunc "MyModule" "greet")]⟩]
    construct := fun args => Except.ok args }

/-- Claim C1 counterexample: the identifier `my_module` is already cached
(instance 7), yet invoking the transformation with a keyword override does
not return the cached instance — line 39's
`super().__init_subclass__(**init_kwargs)` raises `TypeError` before the
cache check, so the claim's unconditional "returns the previously cached
instance" is false.  (The no-side-effect half survives: the state is
untouched.) -/
theorem transform_cached_overrides_raise :
    wC1s.cache "my_module" = some 7 ∧
    transform wC1cls [("name", Value.str "x")] (some "my_module") wC1s
      = Except.error (PyExc.typeError
          ("MyModule" ++ ".__init_subclass__() takes no keyword arguments")) ∧
    transformId wC1cls [("name", Value.str "x")] (some "my_module") wC1s = Option.none ∧
    runOne wC1s ⟨wC1cls, [("name", Value.str "x")], some "my_module"⟩ = wC1s :=
  ⟨rfl, rfl, rfl, rfl⟩

/-- Claim C1 (amended): idempotence of the Transformer for definitions
without keyword overrides.  If the Registry (`FileAsClass._cache`, lines
50-51) already holds an instance `i` for the calling module's identifier,
invoking the transformation again with no keyword overrides (so that line
39's `super().__init_subclass__` call passes) returns exactly that cached
instance together with an unchanged process state: no new instantiation
happens (`nextId` and the heap are those of `s`), and neither the module
table, nor the Registry, nor any instance is mutated.  (With keyword
overrides the invocation instead fails at line 39 — see the
counterexample — likewise without instantiation or mutation.) -/
theorem transform_cached_idempotent (cls : ClassSpec)
    (module_name : String) (s : PyState) (i : Nat) (m : ModEntry)
    (hmod : s.modules module_name = some m) (hcache : s.cache module_name = some i) :
    transform cls [] (some module_name) s = Except.ok (i, s) :=
  transform_hit cls module_name s i m hmod hcache

theorem transform_cached_idempotent_witness :
    wC1s.modules "my_module" = some (ModEntry.mod wC1attrs) ∧
    wC1s.cache "my_module" = some 7 ∧
    transform wC1cls [] (some "my_module") wC1s = Except.ok (7, wC1s) :=
  ⟨rfl, rfl,
    transform_cached_idempotent wC1cls "my_module" wC1s 7
      (ModEntry.mod wC1attrs) rfl rfl⟩

/-! ### Claim C2 -/

/-- Claim C2: singleton invariant.  Starting from a state satisfying `Inv`
(the Registry and the module table agree, as established by lines 103-104),
if a transformation of module `n` succeeds returning instance `i1`, then any
later successful transformation of `n` — after arbitrarily many intervening
transformation requests — returns the same instance `i1` (at most one
singleton ever exists per identifier), and in the final state the module
table's entry and the Registry's entry for `n` are the identical instance
object `i1`. -/
theorem singleton_invariant (s : PyState) (hInv : Inv s) (cls1 cls2 : ClassSpec)
    (k1 k2 : List (String × Value)) (n : String) (es : List TEvent) (i1 i2 : Nat)
    (h1 : transformId cls1 k1 (some n) s = some i1)
    (h2 : transformId cls2 k2 (some n)
        (run (transformState cls1 k1 (some n) s) es) = some i2) :
    i2 = i1 ∧
    (transformState cls2 k2 (some n)
        (run (transformState cls1 k1 (some n) s) es)).cache n = some i1 ∧
    (transformState cls2 k2 (some n)
        (run (transformState cls1 k1 (some n) s) es)).modules n
      = some (ModEntry.ref i1) := by
  cases ht1 : transform cls1 k1 (some n) s with
  | error e => simp [transformId, ht1] at h1
  | ok r =>
    obtain ⟨j1, s1⟩ := r
    simp only [transformId, ht1, Option.some.injEq] at h1
    rw [h1] at ht1
    have hs1 : transformState cls1 k1 (some n) s = s1 := by
      simp [transformState, ht1]
    rw [hs1] at h2 ⊢
    have hc1 : s1.cache n = some i1 := transform_ok_cache_self cls1 k1 n s i1 s1 ht1
    have hm1 : s1.modules n = some (ModEntry.ref i1) :=
      transform_ok_modules_self cls1 k1 n s i1 s1 hInv ht1
    have hrun := run_pres es s1 n i1 hc1 hm1
    cases k2 with
    | cons a l => simp [transformId, transform] at h2
    | nil =>
      have ht2 : transform cls2 [] (some n) (run s1 es)
          = Except.ok (i1, run s1 es) :=
        transform_hit cls2 n (run s1 es) i1 (ModEntry.ref i1) hrun.2 hrun.1
      simp only [transformId, transformState, ht2, Option.some.injEq] at h2 ⊢
      exact ⟨h2.symm, hrun.1, hrun.2⟩

def wC2s : PyState :=
  { modules := fun n => if n = "my_module" then some (ModEntry.mod wC1attrs) else Option.none
    cache := fun _ => Option.none
    heap := fun _ => Option.none
    nextId := 0 }

theorem singleton_invariant_witness :
    Inv wC2s ∧
    transformId wC1cls [] (some "my_module") wC2s = some 0 ∧
    transformId wC1cls [] (some "my_module")
      (run (transformState wC1cls [] (some "my_module") wC2s) [])
      = some 0 ∧
    (0 = 0 ∧
      (transformState wC1cls [] (some "my_module")
        (run (transformState wC1cls [] (some "my_module") wC2s) [])).cache
          "my_module" = some 0 ∧
      (transformState wC1cls [] (some "my_module")
        (run (transformState wC1cls [] (some "my_module") wC2s) [])).modules
          "my_module" = some (ModEntry.ref 0)) := by
  have hInv : Inv wC2s := by
    intro n i h
    simp [wC2s] at h
  exact ⟨hInv, rfl, rfl,
    singleton_invariant wC2s hInv wC1cls wC1cls [] []
      "my_module" [] 0 0 rfl rfl⟩

/-! ### Claim C3 -/

/-- Whether a transformation outcome is the failure the spec calls
ConfigurationError — the `RuntimeError` raised at line 46. -/
def isConfigurationError : Except PyExc (Nat × PyState) → Bool
  | Except.error (PyExc.runtimeError _) => true
  | _ => false

/-- Claim C3 counterexample: a definition whose calling context's identifier
is unresolvable but which passes a keyword override fails at line 39 with
`TypeError`, before the frame introspection of lines 42-46 ever runs — not
with the ConfigurationError (line-46 `RuntimeError`) the claim promises for
every such transformation.  (The abort-before-mutation half survives: the
state is untouched.) -/
theorem transform_unresolved_overrides_raise :
    transform wC1cls [("name", Value.str "x")] Option.none wC1s
      = Except.error (PyExc.typeError
          ("MyModule" ++ ".__init_subclass__() takes no keyword arguments")) ∧
    isConfigurationError
      (transform wC1cls [("name", Value.str "x")] Option.none wC1s) = false ∧
    runOne wC1s ⟨wC1cls, [("name", Value.str "x")], Option.none⟩ = wC1s :=
  ⟨rfl, rfl, rfl⟩

/-- Claim C3 (amended): when the calling context's module identifier cannot
be resolved (lines 42-46: `caller_frame.f_globals.get('__name__')` returned
nothing) and the definition passes no keyword overrides (so execution
reaches the introspection at all), the Transformer fails immediately with
the error the spec calls ConfigurationError — in the source, the
`RuntimeError` raised at line 46 — and the transformation aborts before any
process-wide state is mutated: for every class and every starting state,
the result is that error and the post-call state equals the starting state.
(With keyword overrides the failure is instead line 39's `TypeError` — see
the counterexample — likewise before any mutation.) -/
theorem transform_unresolved_identifier (cls : ClassSpec) (s : PyState) :
    transform cls [] Option.none s
      = Except.error
          (PyExc.runtimeError "Cannot determine module name from caller's frame.") ∧
    isConfigurationError (transform cls [] Option.none s) = true ∧
    runOne s ⟨cls, [], Option.none⟩ = s :=
  ⟨rfl, rfl, rfl⟩

/-! ### Claim C4 -/

def wC4cls : ClassSpec :=
  { clsId := 3, name := "Broken"
    params := []
    dict := []
    mro := [⟨3, "Broken", []⟩]
    -- an `__init__` that raises ValueError("boom"): any exception that is
    -- not a TypeError
    construct := fun _ => Except.error (PyExc.otherError "boom") }

def wC4s : PyState :=
  { modules := fun n => if n = "broken_module" then some (ModEntry.mod (fun _ => Option.none))
      else Option.none
    cache := fun _ => Option.none
    heap := fun _ => Option.none
    nextId := 0 }

/-- Claim C4 counterexample: the `except TypeError` at line 70 wraps only
`TypeError`.  Here instantiating the class raises an exception that is not a
`TypeError` (a `ValueError("boom")`), and the Transformer propagates it raw:
the outcome is not a `TransformationError`, contradicting the claim that
every construction failure is wrapped. -/
theorem construct_failure_not_always_wrapped :
    wC4cls.construct (buildInitArgs wC4cls.params (kwargsMap []))
      = Except.error (PyExc.otherError "boom") ∧
    transform wC4cls [] (some "broken_module") wC4s
      = Except.error (PyExc.otherError "boom") ∧
    isTransformationError
      (transform wC4cls [] (some "broken_module") wC4s) = false :=
  ⟨rfl, rfl, rfl⟩

/-- Claim C4 (amended): for every transformation invoked without keyword
overrides (so execution reaches the instantiation at line 69 at all) in
which instantiating the user's class raises a `TypeError`, the Transformer
raises a `TransformationError` wrapping the underlying construction failure
(line 72), and process-wide state is untouched — in particular every
Registry entry present before the failure is unchanged.  Constructor
exceptions of any other kind propagate unwrapped (see the counterexample),
as does the `TypeError` raised at line 39 when keyword overrides are
passed; no failure path mutates state. -/
theorem construct_typeError_wrapped (cls : ClassSpec)
    (n : String) (s : PyState) (m : ModEntry) (msg : String)
    (hmod : s.modules n = some m) (hcache : s.cache n = Option.none)
    (hraise : cls.construct (buildInitArgs cls.params (kwargsMap []))
        = Except.error (PyExc.typeError msg)) :
    transform cls [] (some n) s
      = Except.error (PyExc.transformationError
          ("Error instantiating " ++ cls.name ++ ": " ++ msg)) ∧
    runOne s ⟨cls, [], some n⟩ = s := by
  have ht : transform cls [] (some n) s
      = Except.error (PyExc.transformationError
          ("Error instantiating " ++ cls.name ++ ": " ++ msg)) := by
    simp [transform, hmod, hcache, hraise]
  refine ⟨ht, ?_⟩
  simp [runOne, ht]

def wC4tcls : ClassSpec :=
  { clsId := 4, name := "Fragile"
    params := [⟨"x", Option.none⟩]
    dict := []
    mro := [⟨4, "Fragile", []⟩]
    -- an `__init__` that raises TypeError("bad argument")
    construct := fun _ => Except.error (PyExc.typeError "bad argument") }

theorem construct_typeError_wrapped_witness :
    wC4s.modules "broken_module" = some (ModEntry.mod (fun _ => Option.none)) ∧
    wC4s.cache "broken_module" = Option.none ∧
    wC4tcls.construct (buildInitArgs wC4tcls.params (kwargsMap []))
      = Except.error (PyExc.typeError "bad argument") ∧
    (transform wC4tcls [] (some "broken_module") wC4s
      = Except.error (PyExc.transformationError
          ("Error instantiating " ++ "Fragile" ++ ": " ++ "bad argument")) ∧
     runOne wC4s ⟨wC4tcls, [], some "broken_module"⟩ = wC4s) :=
  ⟨rfl, rfl, rfl,
    construct_typeError_wrapped wC4tcls "broken_module" wC4s
      (ModEntry.mod (fun _ => Option.none)) "bad argument" rfl rfl rfl⟩

/-! ### Claim C5 -/

/-- Claim C5: construction-argument fallback, lines 54-65.  For every
declared constructor parameter (the `__init__` signature minus `self`,
which Python keeps duplicate-free, hence the `Nodup` hypothesis), the value
placed into `init_args` — and hence passed to `cls(**init_args)` at line
69 — is the caller-supplied override when present, otherwise the declared
default when one exists, otherwise `None`; `paramValue` is by definition
exactly that three-way fallback. -/
theorem buildInitArgs_fallback (params : List Param) (init_kwargs : AttrMap)
    (p : Param) (hmem : p ∈ params) (hnodup : (params.map Param.name).Nodup) :
    buildInitArgs params init_kwargs p.name = some (paramValue init_kwargs p) :=
  buildInitArgs_mem params init_kwargs p hmem hnodup

def wC5params : List Param :=
  [⟨"name", some (Value.str "buildeasy")⟩, ⟨"size", Option.none⟩, ⟨"flag", some (Value.bool true)⟩]

def wC5kwargs : AttrMap :=
  fun k => if k = "flag" then some (Value.bool false) else Option.none

theorem buildInitArgs_fallback_witness :
    ((⟨"size", Option.none⟩ : Param) ∈ wC5params ∧
      (wC5params.map Param.name).Nodup ∧
      buildInitArgs wC5params wC5kwargs "size" = some Value.none) ∧
    buildInitArgs wC5params wC5kwargs "name" = some (Value.str "buildeasy") ∧
    buildInitArgs wC5params wC5kwargs "flag" = some (Value.bool false) := by
  refine ⟨⟨?_, ?_, ?_⟩, rfl, rfl⟩
  · exact List.mem_cons_of_mem _ (List.mem_cons_self _ _)
  · decide
  · exact buildInitArgs_fallback wC5params wC5kwargs ⟨"size", Option.none⟩
      (List.mem_cons_of_mem _ (List.mem_cons_self _ _)) (by decide)

/-! ### Helper lemmas about the ancestor walk (lines 95-100) -/

/-- A class dictionary containing no public callable named `k` leaves the
instance attribute `k` untouched. -/
theorem inject_noPublic (dict : List (String × Value)) (k : String)
    (h : ∀ v, (k, v) ∈ dict → (isCallable v && !(startsWithUnderscore k)) = false) :
    ∀ acc : AttrMap, injectPublicCallables dict acc k = acc k := by
  induction dict with
  | nil => intro acc; rfl
  | cons kv rest ih =>
    obtain ⟨k0, v0⟩ := kv
    intro acc
    rw [show injectPublicCallables ((k0, v0) :: rest) acc
        = injectPublicCallables rest
            (if isCallable v0 && !(startsWithUnderscore k0) then setAttr acc k0 v0 else acc)
        from rfl]
    rw [ih (fun v hv => h v (List.mem_cons_of_mem _ hv))]
    by_cases hk : k0 = k
    · subst hk
      rw [h v0 (List.mem_cons_self _ _)]
      simp
    · by_cases hg : (isCallable v0 && !(startsWithUnderscore k0)) = true
      · rw [if_pos hg]
        simp only [setAttr]
        rw [if_neg (fun hh => hk hh.symm)]
      · rw [if_neg hg]

/-- If a class dictionary (with Python's duplicate-free keys) contains the
public callable `(m, fB)`, copying it over any accumulated attributes ends
with `m` bound to `fB`. -/
theorem inject_lastUnique (dict : List (String × Value)) (m : String) (fB : Value)
    (hmem : (m, fB) ∈ dict) (hnodup : (dict.map Prod.fst).Nodup)
    (hcall : isCallable fB = true) (hpub : startsWithUnderscore m = false) :
    ∀ acc : AttrMap, injectPublicCallables dict acc m = some fB := by
  induction dict with
  | nil => cases hmem
  | cons kv rest ih =>
    obtain ⟨k0, v0⟩ := kv
    intro acc
    simp only [List.map_cons, List.nodup_cons] at hnodup
    rw [show injectPublicCallables ((k0, v0) :: rest) acc
        = injectPublicCallables rest
            (if isCallable v0 && !(startsWithUnderscore k0) then setAttr acc k0 v0 else acc)
        from rfl]
    rcases List.mem_cons.mp hmem with h | h
    · injection h with h1 h2
      subst h1
      subst h2
      have hnot : ∀ v, (m, v) ∈ rest → (isCallable v && !(startsWithUnderscore m)) = false := by
        intro v hv
        exact absurd (List.mem_map_of_mem Prod.fst hv) hnodup.1
      rw [inject_noPublic rest m hnot]
      rw [if_pos (by rw [hcall, hpub]; rfl)]
      simp [setAttr]
    · exact ih h hnodup.2 _

/-- A stretch of the ancestor walk in which every ancestor either is the
class itself (skipped at line 97) or defines no callable named `m` leaves
the instance attribute `m` untouched. -/
theorem mroWalk_preserve (clsId : Nat) (bases : List AncestorSpec) (m : String)
    (h : ∀ C ∈ bases, C.clsId = clsId ∨ ∀ v, (m, v) ∈ C.dict → isCallable v = false) :
    ∀ acc : AttrMap, mroWalk clsId bases acc m = acc m := by
  induction bases with
  | nil => intro acc; rfl
  | cons b rest ih =>
    intro acc
    rw [show mroWalk clsId (b :: rest) acc
        = mroWalk clsId rest
            (if b.clsId = clsId then acc else injectPublicCallables b.dict acc)
        from rfl]
    rw [ih (fun C hC => h C (List.mem_cons_of_mem _ hC))]
    by_cases hid : b.clsId = clsId
    · rw [if_pos hid]
    · rw [if_neg hid]
      rcases h b (List.mem_cons_self _ _) with hb | hb
      · exact absurd hb hid
      · exact inject_noPublic b.dict m (fun v hv => by rw [hb v hv]; rfl) acc

theorem mroWalk_append (clsId : Nat) (l1 l2 : List AncestorSpec) (acc : AttrMap) :
    mroWalk clsId (l1 ++ l2) acc = mroWalk clsId l2 (mroWalk clsId l1 acc) := by
  simp [mroWalk, List.foldl_append]

/-! ### Claim C6 -/

/-- Claim C6: ancestor merge ordering.  Let the method-resolution order of
the transformed class list the ancestor `A` (closer) before the ancestor `B`
(further), both distinct from the class itself and both defining the same
non-underscore-prefixed callable name `m`.  Provided no ancestor after `B`
in the walk writes `m` (each later entry either is the skipped class itself
or defines no callable `m`), the attribute bound onto the instance after
the ancestor walk of lines 95-100 is the last one written during the walk,
namely the version `fB` from the ancestor visited later. -/
theorem mroWalk_last_writer_wins (clsId : Nat) (attrs : AttrMap)
    (pre mid post : List AncestorSpec) (A B : AncestorSpec) (m : String) (fA fB : Value)
    (hAne : A.clsId ≠ clsId) (hBne : B.clsId ≠ clsId)
    (hAmem : (m, fA) ∈ A.dict) (hAcall : isCallable fA = true)
    (hpub : startsWithUnderscore m = false)
    (hBmem : (m, fB) ∈ B.dict) (hBcall : isCallable fB = true)
    (hBnodup : (B.dict.map Prod.fst).Nodup)
    (hpost : ∀ C ∈ post, C.clsId = clsId ∨ ∀ v, (m, v) ∈ C.dict → isCallable v = false) :
    mroWalk clsId (pre ++ A :: mid ++ B :: post) attrs m = some fB := by
  have hsplit : pre ++ A :: mid ++ B :: post = (pre ++ A :: mid) ++ B :: post := by
    simp [List.append_assoc]
  rw [hsplit, mroWalk_append]
  rw [show mroWalk clsId (B :: post) (mroWalk clsId (pre ++ A :: mid) attrs)
      = mroWalk clsId post
          (if B.clsId = clsId then mroWalk clsId (pre ++ A :: mid) attrs
           else injectPublicCallables B.dict (mroWalk clsId (pre ++ A :: mid) attrs))
      from rfl]
  rw [mroWalk_preserve clsId post m hpost]
  rw [if_neg hBne]
  exact inject_lastUnique B.dict m fB hBmem hBnodup hBcall hpub _

def wC6self : AncestorSpec := ⟨0, "Derived", [("other", Value.pyFunc "Derived" "other")]⟩

def wC6A : AncestorSpec := ⟨1, "MixinA", [("ping", Value.pyFunc "MixinA" "ping")]⟩

def wC6B : AncestorSpec := ⟨2, "MixinB", [("ping", Value.pyFunc "MixinB" "ping")]⟩

theorem mroWalk_last_writer_wins_witness :
    ((wC6A.clsId ≠ 0 ∧ wC6B.clsId ≠ 0) ∧
      ("ping", Value.pyFunc "MixinA" "ping") ∈ wC6A.dict ∧
      isCallable (Value.pyFunc "MixinA" "ping") = true ∧
      startsWithUnderscore "ping" = false ∧
      ("ping", Value.pyFunc "MixinB" "ping") ∈ wC6B.dict ∧
      isCallable (Value.pyFunc "MixinB" "ping") = true ∧
      (wC6B.dict.map Prod.fst).Nodup) ∧
    mroWalk 0 ([wC6self] ++ wC6A :: [] ++ wC6B :: []) (fun _ => Option.none) "ping"
      = some (Value.pyFunc "MixinB" "ping") := by
  refine ⟨⟨⟨by decide, by decide⟩, List.mem_cons_self _ _, rfl, by decide,
    List.mem_cons_self _ _, rfl, by decide⟩, ?_⟩
  exact mroWalk_last_writer_wins 0 (fun _ => Option.none) [wC6self] [] [] wC6A wC6B
    "ping" (Value.pyFunc "MixinA" "ping") (Value.pyFunc "MixinB" "ping")
    (by decide) (by decide) (List.mem_cons_self _ _) rfl (by decide)
    (List.mem_cons_self _ _) rfl (by decide)
    (fun C hC => absurd hC (List.not_mem_nil C))

/-! ### The plugin scanner, `scan_for_plugins` (lines 187-208) -/

/-- `filename.endswith(extension)` at line 201: the extension's characters
are a suffix of the filename's characters. -/
def endsWithExt (filename extension : String) : Bool :=
  extension.data.isSuffixOf filename.data

/-- Line 202: `module_name = filename[:-3]` — the scanner always drops the
last three characters of the filename (the comment in the source says
`Remove ".py" extension`), whatever `extension` was passed. -/
def formModuleName (filename : String) : String :=
  String.mk (filename.data.take (filename.data.length - 3))

/-- What executing `__import__(module_name)` does, line 204: the module body
is arbitrary code, so its behaviour is an environment parameter — it either
raises, or defines a plain module, or defines a `FileAsClass` subclass
(whose definition fires the Transformer with the module's own name). -/
inductive ImportBehavior where
  | raises (msg : String)
  | plainModule (modAttrs : AttrMap)
  | definesSubclass (modAttrs : AttrMap) (cls : ClassSpec) (kwargs : List (String × Value))

/-- `str(e)` for the print at line 208. -/
def excMsg : PyExc → String
  | PyExc.typeError m => m
  | PyExc.otherError m => m
  | PyExc.runtimeError m => m
  | PyExc.keyError k => k
  | PyExc.attributeError m => m
  | PyExc.transformationError m => m

/-- `__import__(module_name)` at line 204.  If the module is already in
`sys.modules` it is returned without re-executing its body; otherwise Python
inserts the fresh module object into `sys.modules` and executes the body,
which for a qualifying file triggers the Transformer. -/
def importModule (env : String → ImportBehavior) (name : String) (s : PyState) :
    Except PyExc PyState :=
  match s.modules name with
  | some _ => Except.ok s
  | Option.none =>
    match env name with
    | ImportBehavior.raises msg => Except.error (PyExc.otherError msg)
    | ImportBehavior.plainModule modAttrs =>
      Except.ok { s with
        modules := fun n => if n = name then some (ModEntry.mod modAttrs) else s.modules n }
    | ImportBehavior.definesSubclass modAttrs cls kwargs =>
      let s1 : PyState := { s with
        modules := fun n => if n = name then some (ModEntry.mod modAttrs) else s.modules n }
      match transform cls kwargs (some name) s1 with
      | Except.ok r => Except.ok r.2
      | Except.error e => Except.error e

/-- The message printed at line 208. -/
def failMsg (module_name : String) (e : String) : String :=
  "Failed to load plugin " ++ module_name ++ ": " ++ e

/-- One iteration of the scan loop, lines 200-208.  Inside the `try` block
the source first imports the module and then evaluates `FileAsClass(module)`
(line 205); `FileAsClass` declares neither `__init__` nor `__new__`, so that
call itself raises `TypeError("FileAsClass() takes no arguments")`, which
the same `except` catches — hence even a successful import appends a
failure message, after the import's side effects (including the
transformation) have already happened. -/
def scanStep (env : String → ImportBehavior) (extension : String)
    (acc : PyState × List String) (filename : String) : PyState × List String :=
  if endsWithExt filename extension then
    let module_name := formModuleName filename
    match importModule env module_name acc.1 with
    | Except.error e => (acc.1, acc.2 ++ [failMsg module_name (excMsg e)])
    | Except.ok s' => (s', acc.2 ++ [failMsg module_name "FileAsClass() takes no arguments"])
  else acc

/-- Lines 199-208: fold the loop body over the directory listing, starting
with no output; the result is the final process state and the printed
failure messages, and by construction no exception ever escapes the loop. -/
def scan_for_plugins (env : String → ImportBehavior) (directory : List String)
    (extension : String) (s : PyState) : PyState × List String :=
  directory.foldl (scanStep env extension) (s, [])

/-! ### Claim C7 -/

/-- Claim C7: scanner resilience.  For a directory listing one matching file
whose import raises and one matching file whose import succeeds and defines
a qualifying subclass (success entails passing no class keywords, since
line 39 rejects them during import), `scan_for_plugins` returns normally
(it is a total function into a normal result — every exception of an entry
is caught inside `scanStep`), the succeeding file's instance is registered
in the Registry, and a failure notice naming the failing plugin is among
the printed messages. -/
theorem scan_resilient (env : String → ImportBehavior) (ext f1 f2 : String)
    (s : PyState) (msg : String) (ma : AttrMap) (cls : ClassSpec)
    (a0 : AttrMap)
    (h1ext : endsWithExt f1 ext = true) (h2ext : endsWithExt f2 ext = true)
    (hfail : env (formModuleName f1) = ImportBehavior.raises msg)
    (hsucc : env (formModuleName f2) = ImportBehavior.definesSubclass ma cls [])
    (hmod1 : s.modules (formModuleName f1) = Option.none)
    (hmod2 : s.modules (formModuleName f2) = Option.none)
    (hcache2 : s.cache (formModuleName f2) = Option.none)
    (hok : cls.construct (buildInitArgs cls.params (kwargsMap [])) = Except.ok a0) :
    (scan_for_plugins env [f1, f2] ext s).1.cache (formModuleName f2) = some s.nextId ∧
    failMsg (formModuleName f1) msg ∈ (scan_for_plugins env [f1, f2] ext s).2 := by
  have hstep1 : scanStep env ext (s, []) f1 = (s, [failMsg (formModuleName f1) msg]) := by
    simp [scanStep, h1ext, importModule, hmod1, hfail, excMsg]
  obtain ⟨s2, ht⟩ := transform_creates cls (formModuleName f2)
    { s with modules := fun n => if n = formModuleName f2
        then some (ModEntry.mod ma) else s.modules n }
    (ModEntry.mod ma) a0 (by simp) hcache2 hok
  have hc2 : s2.cache (formModuleName f2) = some s.nextId :=
    transform_ok_cache_self cls [] (formModuleName f2) _ s.nextId s2 ht
  have hstep2 : scanStep env ext (s, [failMsg (formModuleName f1) msg]) f2
      = (s2, [failMsg (formModuleName f1) msg,
          failMsg (formModuleName f2) "FileAsClass() takes no arguments"]) := by
    simp [scanStep, h2ext, importModule, hmod2, hsucc, ht]
  have hscan : scan_for_plugins env [f1, f2] ext s
      = (s2, [failMsg (formModuleName f1) msg,
          failMsg (formModuleName f2) "FileAsClass() takes no arguments"]) := by
    show scanStep env ext (scanStep env ext (s, []) f1) f2 = _
    rw [hstep1, hstep2]
  rw [hscan]
  exact ⟨hc2, List.mem_cons_self _ _⟩

def wC7cls : ClassSpec :=
  { clsId := 9, name := "GoodPlugin"
    params := [⟨"name", some (Value.str "buildeasy")⟩]
    dict := [("greet", Value.pyFunc "GoodPlugin" "greet")]
    mro := [⟨9, "GoodPlugin", [("greet", Value.pyFunc "GoodPlugin" "greet")]⟩]
    construct := fun args => Except.ok args }

def wC7env : String → ImportBehavior := fun n =>
  if n = "bad" then ImportBehavior.raises "boom"
  else if n = "good" then
    ImportBehavior.definesSubclass (fun _ => Option.none) wC7cls []
  else ImportBehavior.plainModule (fun _ => Option.none)

def wC7s : PyState :=
  { modules := fun _ => Option.none
    cache := fun _ => Option.none
    heap := fun _ => Option.none
    nextId := 0 }

theorem scan_resilient_witness :
    (endsWithExt "bad.py" ".py" = true ∧ endsWithExt "good.py" ".py" = true ∧
      wC7env (formModuleName "bad.py") = ImportBehavior.raises "boom" ∧
      wC7env (formModuleName "good.py")
        = ImportBehavior.definesSubclass (fun _ => Option.none) wC7cls [] ∧
      wC7s.modules (formModuleName "bad.py") = Option.none ∧
      wC7s.modules (formModuleName "good.py") = Option.none ∧
      wC7s.cache (formModuleName "good.py") = Option.none ∧
      wC7cls.construct (buildInitArgs wC7cls.params (kwargsMap []))
        = Except.ok (buildInitArgs wC7cls.params (kwargsMap []))) ∧
    (scan_for_plugins wC7env ["bad.py", "good.py"] ".py" wC7s).1.cache
      (formModuleName "good.py") = some 0 ∧
    failMsg (formModuleName "bad.py") "boom"
      ∈ (scan_for_plugins wC7env ["bad.py", "good.py"] ".py" wC7s).2 := by
  refine ⟨⟨by decide, by decide, rfl, rfl, rfl, rfl, rfl, rfl⟩, ?_⟩
  exact scan_resilient wC7env ".py" "bad.py" "good.py" wC7s "boom"
    (fun _ => Option.none) wC7cls
    (buildInitArgs wC7cls.params (kwargsMap []))
    (by decide) (by decide) rfl rfl rfl rfl rfl rfl

/-! ### Claim C10 -/

/-- Claim C10 (behaviour at the failing input): the scanner's module-name
formation at line 202 is `filename[:-3]` — it always removes exactly three
characters.  For the matching entry `"plugin.json"` with
`extension = ".json"` it therefore produces `"plugin.j"` and not the
claimed extension-stripped name `"plugin"`. -/
theorem formModuleName_drops_three_chars :
    endsWithExt "plugin.json" ".json" = true ∧
    formModuleName "plugin.json" = "plugin.j" ∧
    formModuleName "plugin.json" ≠ "plugin" := by
  refine ⟨by decide, by decide, by decide⟩

/-! ### The attribute lookup override, `__getattribute__` (lines 210-237) -/

/-- The possible outcomes of one attribute access. -/
inductive LookupResult where
  | found (v : Value)
  | attributeError (clsName attrName : String)
  | indexError
  | recursionError

/-- `FileAsClass.__getattribute__`, lines 224-237.  `lookup` is the normal
attribute lookup performed by `super().__getattribute__` (a pure function of
the instance and class contents, so identical at every re-entry); `fuel`
models the interpreter's recursion limit.  When the normal lookup fails,
`hasattr(self, name)` at line 229 evaluates `getattr(self, name)`, which
re-enters this very method; a `found` answer then triggers the tuple check
at line 231 (with `getattr(self, name)` re-entering again — deterministic,
so it yields the same value) and `[0]` on an empty tuple would be an
`IndexError`; a failed `hasattr` reaches the `raise AttributeError` at line
237; exhausted fuel is Python's `RecursionError`. -/
def getattribute (lookup : String → Option Value) (clsName : String) :
    Nat → String → LookupResult
  | 0, _ => LookupResult.recursionError
  | fuel + 1, name =>
    match lookup name with
    | some v => LookupResult.found v
    | Option.none =>
      match getattribute lookup clsName fuel name with
      | LookupResult.found v =>
        match v with
        | Value.tuple elems =>
          match elems.head? with
          | some x => LookupResult.found x
          | Option.none => LookupResult.indexError
        | _ => LookupResult.found v
      | LookupResult.attributeError _ _ => LookupResult.attributeError clsName name
      | r => r

/-- Claim C8 (behaviour at the failing input): whenever normal lookup fails
for an attribute, the re-check `hasattr(self, name)` at line 229 re-enters
`__getattribute__` on the same missing name, so the method recurses until
the interpreter's recursion limit: for every amount of fuel the outcome is
`RecursionError`.  In particular the `raise AttributeError` at line 237 —
the non-existence error naming the class and the attribute that the claim
(and the source's own docstring and comment, lines 218 and 236) promises —
is never reached, and the tuple-unwrapping branch is equally unreachable. -/
theorem getattribute_missing_diverges (lookup : String → Option Value)
    (clsName name : String) (hmiss : lookup name = Option.none) :
    ∀ fuel, getattribute lookup clsName fuel name = LookupResult.recursionError := by
  intro fuel
  induction fuel with
  | zero => rfl
  | succ n ih => simp [getattribute, hmiss, ih]

theorem getattribute_missing_diverges_witness :
    ((fun _ => (Option.none : Option Value)) "missing" = Option.none) ∧
    getattribute (fun _ => Option.none) "MyModule" 100 "missing"
      = LookupResult.recursionError :=
  ⟨rfl, getattribute_missing_diverges (fun _ => Option.none) "MyModule" "missing" rfl 100⟩

/-! ### The serializer (lines 134-185) -/

/-- `__getstate__`, lines 134-146: a shallow copy of the instance's
`__dict__` (despite the comment at line 145, nothing is excluded). -/
def getstate (self_dict : AttrMap) : AttrMap := self_dict

/-- `__setstate__`, lines 148-158: `self.__dict__.update(state)`. -/
def setstate (self_dict : AttrMap) (state : AttrMap) : AttrMap :=
  fun k =>
    match state k with
    | some v => some v
    | Option.none => self_dict k

/-- The file system, mapping a path to the pickled state stored there. -/
abbrev FileSystem := String → Option AttrMap

/-- Class attribute lookup, as performed by `cls.instance` at line 172:
search the class's own `__dict__` and then its bases' `__dict__`s in MRO
order; absence everywhere is an `AttributeError`. -/
def clsAttrLookup (mroDicts : List (List (String × Value))) (name : String) :
    Option Value :=
  match mroDicts with
  | [] => Option.none
  | d :: rest =>
    match d.lookup name with
    | some v => some v
    | Option.none => clsAttrLookup rest name

/-- `save_to_file`, lines 160-172.  It is a `@classmethod`, and
`pickle.dump(cls.instance, f)` first evaluates `cls.instance`: a class
attribute lookup through the MRO dictionaries (`mroDicts`).  The
transformation stores `instance` only on the produced instance object (line
89 is a `setattr` on the instance); no class `__dict__` is ever written
anywhere in the package, and only `load_from_file` (line 185) ever assigns
the class attribute — which itself presupposes an already saved file.  So
in a transformed process the lookup raises `AttributeError` before any byte
is written.  `pickleDump` abstracts `pickle.dump` on the success path; in a
transformed process that path would also fail, because pickle resolves the
instance's class by name through the `sys.modules` entry that line 103
replaced with the instance itself, and that attribute access falls into the
diverging `__getattribute__` fallback (see
`getattribute_missing_diverges`). -/
def save_to_file (clsName : String) (mroDicts : List (List (String × Value)))
    (pickleDump : Value → String → FileSystem → Except PyExc FileSystem)
    (filename : String) (fs : FileSystem) : Except PyExc FileSystem :=
  match clsAttrLookup mroDicts "instance" with
  | some v => pickleDump v filename fs
  | Option.none =>
    Except.error (PyExc.attributeError
      ("type object " ++ clsName ++ " has no attribute instance"))

/-- `MyModule.__dict__` as created by `my_module.py` (keys faithful; an
entry named `instance` is never among them). -/
def myModuleDict : List (String × Value) :=
  [("__module__", Value.str "my_module"),
   ("__qualname__", Value.str "MyModule"),
   ("__init__", Value.pyFunc "MyModule" "__init__"),
   ("greet", Value.pyFunc "MyModule" "greet")]

/-- `FileAsClass.__dict__` as created by lines 14-237 (keys faithful; an
entry named `instance` is never among them). -/
def fileAsClassDict : List (String × Value) :=
  [("__module__", Value.str "buildeasy.buildeasy"),
   ("__qualname__", Value.str "FileAsClass"),
   ("__doc__", Value.str "Main code for buildeasy Python package"),
   ("_cache", Value.obj "dict"),
   ("__init_subclass__", Value.classmethodObj "FileAsClass" "__init_subclass__"),
   ("add_dynamic_method", Value.pyFunc "FileAsClass" "add_dynamic_method"),
   ("load_from_cache", Value.staticmethodObj "FileAsClass" "load_from_cache"),
   ("__getstate__", Value.pyFunc "FileAsClass" "__getstate__"),
   ("__setstate__", Value.pyFunc "FileAsClass" "__setstate__"),
   ("save_to_file", Value.classmethodObj "FileAsClass" "save_to_file"),
   ("load_from_file", Value.classmethodObj "FileAsClass" "load_from_file"),
   ("scan_for_plugins", Value.classmethodObj "FileAsClass" "scan_for_plugins"),
   ("__getattribute__", Value.pyFunc "FileAsClass" "__getattribute__"),
   ("__dict__", Value.obj "getset_descriptor"),
   ("__weakref__", Value.obj "getset_descriptor")]

/-- A representative slice of `object.__dict__` (abridged: no slot of
`object` is named `instance`). -/
def objectDict : List (String × Value) :=
  [("__repr__", Value.obj "slot wrapper"),
   ("__hash__", Value.obj "slot wrapper"),
   ("__str__", Value.obj "slot wrapper"),
   ("__setattr__", Value.obj "slot wrapper"),
   ("__delattr__", Value.obj "slot wrapper"),
   ("__init__", Value.obj "slot wrapper"),
   ("__new__", Value.obj "builtin function"),
   ("__reduce_ex__", Value.obj "method"),
   ("__reduce__", Value.obj "method"),
   ("__subclasshook__", Value.obj "classmethod"),
   ("__init_subclass__", Value.obj "classmethod"),
   ("__format__", Value.obj "method"),
   ("__sizeof__", Value.obj "method"),
   ("__dir__", Value.obj "method"),
   ("__class__", Value.obj "getset_descriptor"),
   ("__doc__", Value.obj "str")]

/-! ### Claim C9 -/

/-- Claim C9 (behaviour at the failing input): the save half of the claimed
round-trip can never run.  Whenever no class in the MRO defines a class
attribute named `instance` — which is the state of every transformed
subclass, since line 89 sets `instance` on the instance object only and the
package never writes any class `__dict__` (only line 185 assigns the class
attribute, and it presupposes an already saved file) — `save_to_file`
raises an `AttributeError` naming the class, for every pickling backend,
target path and filesystem; nothing is written, so the load half of the
claimed round-trip has nothing to reproduce. -/
theorem save_to_file_raises (clsName : String)
    (mroDicts : List (List (String × Value)))
    (pickleDump : Value → String → FileSystem → Except PyExc FileSystem)
    (filename : String) (fs : FileSystem)
    (hmiss : clsAttrLookup mroDicts "instance" = Option.none) :
    save_to_file clsName mroDicts pickleDump filename fs
      = Except.error (PyExc.attributeError
          ("type object " ++ clsName ++ " has no attribute instance")) := by
  simp [save_to_file, hmiss]

theorem save_to_file_raises_witness :
    clsAttrLookup [myModuleDict, fileAsClassDict, objectDict] "instance" = Option.none ∧
    save_to_file "MyModule" [myModuleDict, fileAsClassDict, objectDict]
      (fun _ _ fs => Except.ok fs) "state.pkl" (fun _ => Option.none)
      = Except.error (PyExc.attributeError
          ("type object " ++ "MyModule" ++ " has no attribute instance")) :=
  ⟨rfl, save_to_file_raises "MyModule" [myModuleDict, fileAsClassDict, objectDict]
    (fun _ _ fs => Except.ok fs) "state.pkl" (fun _ => Option.none) rfl⟩

end BuildEasy
